import Mathlib

/-!
Verification of the CI/CD backend's data-access layer (FastAPI app in
`backend/app/main.py` over the SQLAlchemy models in `backend/app/models.py`).

The embedding models the relational store as in-memory lists of rows and the
read-only endpoint handlers as pure functions over that store:

* `select(T).where(col == v)` is `List.filter` with equality on the column;
  for the `Enum`-typed `status`/`environment` columns the comparison value
  first goes through SQLAlchemy's bind lookup, which recognizes a member
  value or member name and coerces it to the member (`Enum` persists member
  names, and the `str`-mixin enums make the lowercase values equal keys);
  any other string reaches the configured native PostgreSQL enum column
  (`postgresql+asyncpg` in `database.py`) and the query raises
  `invalid input value for enum` — an unhandled failure, modelled as an
  explicit error outcome of the list endpoints;
* `order_by(col.desc())` is `List.insertionSort` with the relation
  "later-or-equal timestamp first" (SQL leaves ties arbitrary, so any
  total-order sort is a valid refinement);
* `.limit(n)` is `List.take n` (in the handlers `.where` is chained after
  `.limit`, but the SQL select construct renders WHERE before ORDER BY and
  LIMIT regardless of builder-call order, so filtering comes first);
* `Result.scalar_one_or_none()` returns `none` on zero rows, the row on one
  row, and raises `MultipleResultsFound` on two or more rows — modelled with
  an explicit error outcome.

Timestamps are modelled as `Nat`. The schema gives every row a server-assigned
creation timestamp (`server_default=func.now()`), so `requested_at` and
`started_at` are non-null on every stored row; nullable completion/review
timestamps are `Option Nat`. Enum-typed columns are modelled as inductive
types whose serialized form is the enum's string value; JSON payload columns
(`manual_tests`, `vulnerabilities`) are carried as opaque optional strings.
-/

namespace CICD

/-- `ApprovalStatus` enum from `models.py`: pending/approved/rejected/cancelled. -/
inductive ApprovalStatus
  | pending
  | approved
  | rejected
  | cancelled
deriving DecidableEq, Repr

/-- String value of an `ApprovalStatus` member, as serialized in responses and
compared by the `status` filter. -/
def ApprovalStatus.value : ApprovalStatus → String
  | .pending => "pending"
  | .approved => "approved"
  | .rejected => "rejected"
  | .cancelled => "cancelled"

/-- `DeploymentStatus` enum from `models.py`. -/
inductive DeploymentStatus
  | pending
  | in_progress
  | success
  | failed
  | rolled_back
deriving DecidableEq, Repr

/-- String value of a `DeploymentStatus` member. -/
def DeploymentStatus.value : DeploymentStatus → String
  | .pending => "pending"
  | .in_progress => "in_progress"
  | .success => "success"
  | .failed => "failed"
  | .rolled_back => "rolled_back"

/-- `Environment` enum from `models.py`: staging/production. -/
inductive Environment
  | staging
  | production
deriving DecidableEq, Repr

/-- String value of an `Environment` member. -/
def Environment.value : Environment → String
  | .staging => "staging"
  | .production => "production"

/-- The enumerated `status` strings of `ApprovalStatus` (the values the spec
lists for the `status` filter). -/
def approvalStatusValues : List String :=
  ["pending", "approved", "rejected", "cancelled"]

/-- The member names of `ApprovalStatus`: the strings SQLAlchemy's `Enum`
type actually persists for the column (and the labels of the native
PostgreSQL enum type it emits). -/
def approvalStatusNames : List String :=
  ["PENDING", "APPROVED", "REJECTED", "CANCELLED"]

/-- The enumerated `environment` strings of `Environment`. -/
def environmentValues : List String :=
  ["staging", "production"]

/-- The member names of `Environment`, the persisted strings / native enum
labels. -/
def environmentNames : List String :=
  ["STAGING", "PRODUCTION"]

/-- Bind-parameter lookup of SQLAlchemy's `Enum(ApprovalStatus)` type
(`_db_value_for_elem`): its lookup table is keyed by the enum members and by
the persisted member names, and since `ApprovalStatus` mixes in `str`, a
member key is equal (and hash-equal) to its lowercase value — so both the
value string ("pending") and the name string ("PENDING") are recognized and
coerced to the member. Any other string passes through unvalidated
(`validate_strings` defaults to False) and is left to the database. -/
def ApprovalStatus.fromBind (s : String) : Option ApprovalStatus :=
  if s = "pending" then some .pending
  else if s = "PENDING" then some .pending
  else if s = "approved" then some .approved
  else if s = "APPROVED" then some .approved
  else if s = "rejected" then some .rejected
  else if s = "REJECTED" then some .rejected
  else if s = "cancelled" then some .cancelled
  else if s = "CANCELLED" then some .cancelled
  else none

/-- Bind-parameter lookup of `Enum(Environment)`, as in
`ApprovalStatus.fromBind`: value or name strings are coerced to the member,
anything else passes through to the database. -/
def Environment.fromBind (s : String) : Option Environment :=
  if s = "staging" then some .staging
  else if s = "STAGING" then some .staging
  else if s = "production" then some .production
  else if s = "PRODUCTION" then some .production
  else none

/-- Row of `approval_requests` (`ApprovalRequest` in `models.py`). -/
structure ApprovalRequest where
  id : Nat
  build_number : String
  job_name : String
  status : ApprovalStatus
  requested_by : String
  git_commit : String
  git_branch : String
  version_tag : Option String
  staging_backend_url : Option String
  staging_frontend_url : Option String
  staging_api_docs_url : Option String
  approved_by : Option String
  approval_notes : Option String
  rejection_reason : Option String
  manual_tests : Option String
  requested_at : Nat
  reviewed_at : Option Nat
deriving DecidableEq, Repr

/-- Row of `test_summaries` (`TestSummary` in `models.py`). -/
structure TestSummary where
  id : Nat
  build_number : String
  job_name : String
  total_tests : Nat
  passed_tests : Nat
  failed_tests : Nat
  skipped_tests : Nat
  error_tests : Nat
  overall_coverage : Option Nat
  total_duration : Option Nat
  html_report_url : Option String
  allure_report_url : Option String
  created_at : Nat
  updated_at : Option Nat
  approval_id : Option Nat
deriving DecidableEq, Repr

/-- Row of `security_scans` (`SecurityScan` in `models.py`). -/
structure SecurityScan where
  id : Nat
  build_number : String
  job_name : String
  scanner : String
  critical_count : Nat
  high_count : Nat
  medium_count : Nat
  low_count : Nat
  vulnerabilities : Option String
  report_url : Option String
  scanned_at : Nat
  approval_id : Option Nat
deriving DecidableEq, Repr

/-- Row of `deployments` (`Deployment` in `models.py`). -/
structure Deployment where
  id : Nat
  build_number : String
  job_name : String
  environment : Environment
  status : DeploymentStatus
  git_commit : String
  git_branch : String
  version_tag : Option String
  image_tag : Option String
  deployed_by : String
  deployment_notes : Option String
  is_rollback : Bool
  previous_deployment_id : Option Nat
  backend_url : Option String
  frontend_url : Option String
  started_at : Nat
  completed_at : Option Nat
  approval_id : Option Nat
deriving DecidableEq, Repr

/-- The persistent store: the tables the queried endpoints read. -/
structure Database where
  approvals : List ApprovalRequest
  test_summaries : List TestSummary
  security_scans : List SecurityScan
  deployments : List Deployment
deriving Repr

/-- The store with no rows. -/
def Database.empty : Database := ⟨[], [], [], []⟩

/-- ISO-8601 serialization of a timestamp (`datetime.isoformat()`); the
concrete string format is irrelevant to the claims, only that a set timestamp
serializes to a string and an unset one to `null`. -/
def isoformat (t : Nat) : String := toString t

/-- `Result.scalar_one_or_none()` on the rows a query returned: `none` for no
row, the row for exactly one, and the `MultipleResultsFound` exception for two
or more. -/
def scalar_one_or_none (rows : List α) : Except String (Option α) :=
  match rows with
  | [] => .ok none
  | [x] => .ok (some x)
  | _ :: _ :: _ => .error "MultipleResultsFound"

/-- ORDER BY `requested_at` DESC: `a` may precede `b` when `b`'s request
timestamp is not above `a`'s. -/
def approvalDescOrder (a b : ApprovalRequest) : Prop :=
  b.requested_at ≤ a.requested_at

instance : DecidableRel approvalDescOrder := fun a b =>
  Nat.decLe b.requested_at a.requested_at

instance : IsTotal ApprovalRequest approvalDescOrder :=
  ⟨fun a b => Nat.le_total b.requested_at a.requested_at⟩

instance : IsTrans ApprovalRequest approvalDescOrder :=
  ⟨fun _ _ _ h1 h2 => Nat.le_trans h2 h1⟩

/-- ORDER BY `started_at` DESC for deployments. -/
def deploymentDescOrder (a b : Deployment) : Prop :=
  b.started_at ≤ a.started_at

instance : DecidableRel deploymentDescOrder := fun a b =>
  Nat.decLe b.started_at a.started_at

instance : IsTotal Deployment deploymentDescOrder :=
  ⟨fun a b => Nat.le_total b.started_at a.started_at⟩

instance : IsTrans Deployment deploymentDescOrder :=
  ⟨fun _ _ _ h1 h2 => Nat.le_trans h2 h1⟩

/-- The `if status:` guard of `list_approvals`/`list_deployments`: a Python
string parameter is truthy iff it is neither `None` nor empty. -/
def strTruthy : Option String → Bool
  | none => false
  | some s => s != ""

/-- The approval rows matching the `status` query parameter. The WHERE clause
`ApprovalRequest.status == status` is applied only when the parameter is
truthy (non-`None`, non-empty). The column is `Enum(ApprovalStatus)`: a
filter string recognized by the bind lookup (`ApprovalStatus.fromBind` — a
member value or name) is coerced to the member and compared against the
persisted member; an unrecognized string passes through to the store, and
the configured backend (`postgresql+asyncpg` in `database.py`, so a native
PostgreSQL enum whose labels are the member names) rejects it — the query
raises `invalid input value for enum`, an exception the handler does not
catch. -/
def matchingApprovals (db : Database) (status : Option String) :
    Except String (List ApprovalRequest) :=
  if strTruthy status then
    match ApprovalStatus.fromBind (status.getD "") with
    | some st => .ok (db.approvals.filter (fun a => a.status == st))
    | none =>
      .error ("invalid input value for enum approvalstatus: " ++ status.getD "")
  else
    .ok db.approvals

/-- The deployment rows matching the `environment` query parameter, with the
same `Enum(Environment)` bind/raise semantics as `matchingApprovals`. -/
def matchingDeployments (db : Database) (environment : Option String) :
    Except String (List Deployment) :=
  if strTruthy environment then
    match Environment.fromBind (environment.getD "") with
    | some env => .ok (db.deployments.filter (fun d => d.environment == env))
    | none =>
      .error ("invalid input value for enum environment: " ++ environment.getD "")
  else
    .ok db.deployments

/-- ORDER BY `requested_at` DESC then LIMIT `limit` on the rows the WHERE
clause kept. -/
def approvalQueryRows (rows : List ApprovalRequest) (limit : Nat) :
    List ApprovalRequest :=
  (rows.insertionSort approvalDescOrder).take limit

/-- ORDER BY `started_at` DESC then LIMIT `limit` for deployments. -/
def deploymentQueryRows (rows : List Deployment) (limit : Nat) :
    List Deployment :=
  (rows.insertionSort deploymentDescOrder).take limit

/-- One item of the `approvals` array in the `list_approvals` response. -/
structure ApprovalSummaryJson where
  id : Nat
  build_number : String
  job_name : String
  status : String
  git_commit : String
  requested_at : Option String
  staging_frontend_url : Option String
  staging_backend_url : Option String
deriving DecidableEq, Repr

/-- Serialization of an approval row into a `list_approvals` item. -/
def approvalSummaryJson (a : ApprovalRequest) : ApprovalSummaryJson :=
  { id := a.id
    build_number := a.build_number
    job_name := a.job_name
    status := a.status.value
    git_commit := a.git_commit
    requested_at := some (isoformat a.requested_at)
    staging_frontend_url := a.staging_frontend_url
    staging_backend_url := a.staging_backend_url }

/-- Response body of `GET /api/v1/approvals`. -/
structure ApprovalsListResponse where
  count : Nat
  approvals : List ApprovalSummaryJson
deriving DecidableEq, Repr

/-- Handler `list_approvals` (`main.py`): builds the filtered, ordered,
limited query, then returns `count` and the serialized items; a query error
(the native-enum rejection of an unrecognized filter string) propagates out
of the handler as an unhandled failure. The Python default for `limit` is 10
(`list_approvals_default_limit`). -/
def list_approvals (db : Database) (status : Option String) (limit : Nat) :
    Except String ApprovalsListResponse :=
  (matchingApprovals db status).map (fun l =>
    { count := (approvalQueryRows l limit).length
      approvals := (approvalQueryRows l limit).map approvalSummaryJson })

/-- Default of the `limit` parameter of `list_approvals`. -/
def list_approvals_default_limit : Nat := 10

/-- One item of the `deployments` array in the `list_deployments` response. -/
structure DeploymentSummaryJson where
  id : Nat
  build_number : String
  job_name : String
  environment : String
  status : String
  version_tag : Option String
  deployed_by : String
  started_at : Option String
  completed_at : Option String
  is_rollback : Bool
deriving DecidableEq, Repr

/-- Serialization of a deployment row into a `list_deployments` item. -/
def deploymentSummaryJson (d : Deployment) : DeploymentSummaryJson :=
  { id := d.id
    build_number := d.build_number
    job_name := d.job_name
    environment := d.environment.value
    status := d.status.value
    version_tag := d.version_tag
    deployed_by := d.deployed_by
    started_at := some (isoformat d.started_at)
    completed_at := d.completed_at.map isoformat
    is_rollback := d.is_rollback }

/-- Response body of `GET /api/v1/deployments`. -/
structure DeploymentsListResponse where
  count : Nat
  deployments : List DeploymentSummaryJson
deriving DecidableEq, Repr

/-- Handler `list_deployments` (`main.py`), with the same error propagation
as `list_approvals`. The Python default for `limit` is 20
(`list_deployments_default_limit`). -/
def list_deployments (db : Database) (environment : Option String)
    (limit : Nat) : Except String DeploymentsListResponse :=
  (matchingDeployments db environment).map (fun l =>
    { count := (deploymentQueryRows l limit).length
      deployments := (deploymentQueryRows l limit).map deploymentSummaryJson })

/-- Default of the `limit` parameter of `list_deployments`. -/
def list_deployments_default_limit : Nat := 20

/-- The body `{"error": "Approval not found"}` of the not-found branch. -/
structure ErrorBody where
  error : String
deriving DecidableEq, Repr

/-- The `test_summary` object of the `get_approval` detail response. -/
structure TestSummaryJson where
  total : Nat
  passed : Nat
  failed : Nat
  coverage : Option Nat
  report_url : Option String
deriving DecidableEq, Repr

/-- The `security_scan` object of the `get_approval` detail response. -/
structure SecurityScanJson where
  critical : Nat
  high : Nat
  medium : Nat
  low : Nat
deriving DecidableEq, Repr

/-- The composite detail response of `GET /api/v1/approvals/{id}`. -/
structure ApprovalDetailJson where
  id : Nat
  build_number : String
  job_name : String
  status : String
  git_commit : String
  git_branch : String
  requested_by : String
  requested_at : Option String
  staging_frontend_url : Option String
  staging_backend_url : Option String
  staging_api_docs_url : Option String
  test_summary : Option TestSummaryJson
  security_scan : Option SecurityScanJson
  manual_tests : Option String
  approval_notes : Option String
  rejection_reason : Option String
deriving DecidableEq, Repr

/-- Assembly of the detail body from the approval row and the optional child
rows, mirroring the response dict of `get_approval`: each child section is
built only under `if test_summary` / `if security_scan`, else it is `None`. -/
def approvalDetailJson (a : ApprovalRequest) (ts : Option TestSummary)
    (sc : Option SecurityScan) : ApprovalDetailJson :=
  { id := a.id
    build_number := a.build_number
    job_name := a.job_name
    status := a.status.value
    git_commit := a.git_commit
    git_branch := a.git_branch
    requested_by := a.requested_by
    requested_at := some (isoformat a.requested_at)
    staging_frontend_url := a.staging_frontend_url
    staging_backend_url := a.staging_backend_url
    staging_api_docs_url := a.staging_api_docs_url
    test_summary := ts.map (fun t =>
      { total := t.total_tests
        passed := t.passed_tests
        failed := t.failed_tests
        coverage := t.overall_coverage
        report_url := t.html_report_url })
    security_scan := sc.map (fun s =>
      { critical := s.critical_count
        high := s.high_count
        medium := s.medium_count
        low := s.low_count })
    manual_tests := a.manual_tests
    approval_notes := a.approval_notes
    rejection_reason := a.rejection_reason }

/-- Outcome of the `get_approval` handler. `notFoundTuple` is the literal
Python value `({"error": "Approval not found"}, 404)` the handler returns on
a missing id: a plain tuple, not an HTTPException or Response, so FastAPI
serializes the whole tuple as the JSON body of a response with the default
status 200 — the `404` element never becomes the HTTP status code. `raised`
is an exception escaping the handler (an unhandled 500). -/
inductive GetApprovalResult
  | notFoundTuple (body : ErrorBody) (code : Nat)
  | ok (d : ApprovalDetailJson)
  | raised (e : String)
deriving DecidableEq, Repr

/-- Handler `get_approval` (`main.py`): point lookup of the approval by id via
`scalar_one_or_none`, the Flask-style tuple return when absent, then the two
child lookups (`TestSummary` and `SecurityScan` rows with this `approval_id`,
no ORDER BY, no LIMIT) each drained through `scalar_one_or_none`, and finally
the composite response. -/
def get_approval (db : Database) (approval_id : Nat) : GetApprovalResult :=
  match scalar_one_or_none (db.approvals.filter (fun a => a.id == approval_id)) with
  | .error e => .raised e
  | .ok none => .notFoundTuple ⟨"Approval not found"⟩ 404
  | .ok (some approval) =>
    match scalar_one_or_none
        (db.test_summaries.filter (fun t => t.approval_id == some approval_id)) with
    | .error e => .raised e
    | .ok ts =>
      match scalar_one_or_none
          (db.security_scans.filter (fun s => s.approval_id == some approval_id)) with
      | .error e => .raised e
      | .ok sc => .ok (approvalDetailJson approval ts sc)

/-- Response body of `GET /health`. -/
structure HealthResponse where
  status : String
  timestamp : String
  service : String
deriving DecidableEq, Repr

/-- Handler `health_check` (`main.py`): a constant body built from the current
time only. The handler takes no database dependency (no `Depends(get_db)`),
so the embedding takes no `Database` argument: the store cannot influence the
result. As a plain dict return it is served with the FastAPI default HTTP
status 200. -/
def health_check (now : String) : HealthResponse :=
  { status := "healthy"
    timestamp := now
    service := "backend" }

/-! Concrete store states used by witnesses and counterexamples. -/

/-- A minimal approval row: identity fields plus the id, status and request
timestamp a scenario fixes. -/
def mkApproval (id : Nat) (st : ApprovalStatus) (t : Nat) : ApprovalRequest :=
  { id := id
    build_number := toString id
    job_name := "backend-ci"
    status := st
    requested_by := "jenkins"
    git_commit := "deadbeef"
    git_branch := "main"
    version_tag := none
    staging_backend_url := none
    staging_frontend_url := none
    staging_api_docs_url := none
    approved_by := none
    approval_notes := none
    rejection_reason := none
    manual_tests := none
    requested_at := t
    reviewed_at := none }

/-- A minimal test-summary row attached to `aid`. -/
def mkSummary (id : Nat) (aid : Option Nat) (total passed : Nat) : TestSummary :=
  { id := id
    build_number := toString id
    job_name := "backend-ci"
    total_tests := total
    passed_tests := passed
    failed_tests := total - passed
    skipped_tests := 0
    error_tests := 0
    overall_coverage := some 80
    total_duration := some 1000
    html_report_url := none
    allure_report_url := none
    created_at := id
    updated_at := none
    approval_id := aid }

/-- A minimal security-scan row attached to `aid`. -/
def mkScan (id : Nat) (aid : Option Nat) (crit : Nat) : SecurityScan :=
  { id := id
    build_number := toString id
    job_name := "backend-ci"
    scanner := "trivy"
    critical_count := crit
    high_count := 0
    medium_count := 0
    low_count := 0
    vulnerabilities := none
    report_url := none
    scanned_at := id
    approval_id := aid }

/-- A minimal deployment row with the given environment and start time. -/
def mkDeployment (id : Nat) (env : Environment) (t : Nat) : Deployment :=
  { id := id
    build_number := toString id
    job_name := "backend-ci"
    environment := env
    status := DeploymentStatus.success
    git_commit := "deadbeef"
    git_branch := "main"
    version_tag := none
    image_tag := none
    deployed_by := "jenkins"
    deployment_notes := none
    is_rollback := false
    previous_deployment_id := none
    backend_url := none
    frontend_url := none
    started_at := t
    completed_at := none
    approval_id := none }

/-- Store with approval id 1 and two `TestSummary` rows attached to it. -/
def dbTwoSummaries : Database :=
  { approvals := [mkApproval 1 ApprovalStatus.pending 5]
    test_summaries := [mkSummary 1 (some 1) 10 9, mkSummary 2 (some 1) 12 12]
    security_scans := []
    deployments := [] }

/-- Store with approval id 1, no `TestSummary` row, one `SecurityScan` row. -/
def dbOneScan : Database :=
  { approvals := [mkApproval 1 ApprovalStatus.pending 5]
    test_summaries := []
    security_scans := [mkScan 7 (some 1) 2]
    deployments := [] }

/-- Store with approval id 1 in status "pending" and no child rows at all. -/
def dbPendingNoChildren : Database :=
  { approvals := [mkApproval 1 ApprovalStatus.pending 5]
    test_summaries := []
    security_scans := []
    deployments := [] }

/-- Store with three deployments to staging and two to production, plus a few
approval rows of mixed status. -/
def dbScenario : Database :=
  { approvals := [mkApproval 1 ApprovalStatus.pending 5,
                  mkApproval 2 ApprovalStatus.approved 7,
                  mkApproval 3 ApprovalStatus.pending 6]
    test_summaries := []
    security_scans := []
    deployments := [mkDeployment 1 Environment.staging 1,
                    mkDeployment 2 Environment.staging 4,
                    mkDeployment 3 Environment.production 2,
                    mkDeployment 4 Environment.staging 9,
                    mkDeployment 5 Environment.production 3] }

/-! Helper lemmas about the query pipeline. -/

/-- Length of the limited approval query: `take` caps the sorted row list. -/
theorem approvalQueryRows_length (rows : List ApprovalRequest) (limit : Nat) :
    (approvalQueryRows rows limit).length = min limit rows.length := by
  simp [approvalQueryRows,
    (List.perm_insertionSort approvalDescOrder rows).length_eq]

/-- Length of the limited deployment query. -/
theorem deploymentQueryRows_length (rows : List Deployment) (limit : Nat) :
    (deploymentQueryRows rows limit).length = min limit rows.length := by
  simp [deploymentQueryRows,
    (List.perm_insertionSort deploymentDescOrder rows).length_eq]

/-- Rows surviving the sort/limit pipeline come from the matched rows. -/
theorem mem_approvalQueryRows {rows : List ApprovalRequest} {limit : Nat}
    {a : ApprovalRequest} (h : a ∈ approvalQueryRows rows limit) :
    a ∈ rows := by
  have h1 := (List.take_sublist limit _).subset h
  exact (List.mem_insertionSort approvalDescOrder).mp h1

/-- Rows surviving the sort/limit pipeline come from the matched rows. -/
theorem mem_deploymentQueryRows {rows : List Deployment} {limit : Nat}
    {d : Deployment} (h : d ∈ deploymentQueryRows rows limit) :
    d ∈ rows := by
  have h1 := (List.take_sublist limit _).subset h
  exact (List.mem_insertionSort deploymentDescOrder).mp h1

/-- The approval query rows are pairwise in descending `requested_at` order. -/
theorem approvalQueryRows_pairwise (rows : List ApprovalRequest)
    (limit : Nat) :
    (approvalQueryRows rows limit).Pairwise approvalDescOrder :=
  List.Pairwise.sublist (List.take_sublist limit _)
    (List.sorted_insertionSort approvalDescOrder rows)

/-- The deployment query rows are pairwise in descending `started_at` order. -/
theorem deploymentQueryRows_pairwise (rows : List Deployment) (limit : Nat) :
    (deploymentQueryRows rows limit).Pairwise deploymentDescOrder :=
  List.Pairwise.sublist (List.take_sublist limit _)
    (List.sorted_insertionSort deploymentDescOrder rows)

/-- Every `ApprovalStatus` serializes into the enumerated status strings. -/
theorem approvalStatus_value_mem (st : ApprovalStatus) :
    st.value ∈ approvalStatusValues := by
  cases st <;> simp [ApprovalStatus.value, approvalStatusValues]

/-- Every `Environment` serializes into the enumerated environment strings. -/
theorem environment_value_mem (e : Environment) :
    e.value ∈ environmentValues := by
  cases e <;> simp [Environment.value, environmentValues]

/-- The serialized value determines the `ApprovalStatus` member. -/
theorem approvalStatus_value_inj (x y : ApprovalStatus)
    (h : x.value = y.value) : x = y := by
  cases x <;> cases y <;> revert h <;> decide

/-- The serialized value determines the `Environment` member. -/
theorem environment_value_inj (x y : Environment) (h : x.value = y.value) :
    x = y := by
  cases x <;> cases y <;> revert h <;> decide

/-- An enumerated status value is recognized by the bind lookup and coerced
to the member carrying that value. -/
theorem approvalStatus_fromBind_of_value {s : String}
    (hs : s ∈ approvalStatusValues) :
    ∃ st : ApprovalStatus, ApprovalStatus.fromBind s = some st ∧
      st.value = s := by
  simp only [approvalStatusValues, List.mem_cons, List.not_mem_nil,
    or_false] at hs
  rcases hs with rfl | rfl | rfl | rfl
  · exact ⟨.pending, by decide, rfl⟩
  · exact ⟨.approved, by decide, rfl⟩
  · exact ⟨.rejected, by decide, rfl⟩
  · exact ⟨.cancelled, by decide, rfl⟩

/-- An enumerated environment value is recognized by the bind lookup. -/
theorem environment_fromBind_of_value {s : String}
    (hs : s ∈ environmentValues) :
    ∃ env : Environment, Environment.fromBind s = some env ∧
      env.value = s := by
  simp only [environmentValues, List.mem_cons, List.not_mem_nil,
    or_false] at hs
  rcases hs with rfl | rfl
  · exact ⟨.staging, by decide, rfl⟩
  · exact ⟨.production, by decide, rfl⟩

/-- A string that is neither a member value nor a member name is not
recognized by the status bind lookup. -/
theorem approvalStatus_fromBind_eq_none {s : String}
    (h1 : s ∉ approvalStatusValues) (h2 : s ∉ approvalStatusNames) :
    ApprovalStatus.fromBind s = none := by
  simp only [approvalStatusValues, List.mem_cons, List.not_mem_nil, or_false,
    not_or] at h1
  simp only [approvalStatusNames, List.mem_cons, List.not_mem_nil, or_false,
    not_or] at h2
  simp [ApprovalStatus.fromBind, h1.1, h1.2.1, h1.2.2.1, h1.2.2.2,
    h2.1, h2.2.1, h2.2.2.1, h2.2.2.2]

/-- A string that is neither a member value nor a member name is not
recognized by the environment bind lookup. -/
theorem environment_fromBind_eq_none {s : String}
    (h1 : s ∉ environmentValues) (h2 : s ∉ environmentNames) :
    Environment.fromBind s = none := by
  simp only [environmentValues, List.mem_cons, List.not_mem_nil, or_false,
    not_or] at h1
  simp only [environmentNames, List.mem_cons, List.not_mem_nil, or_false,
    not_or] at h2
  simp [Environment.fromBind, h1.1, h1.2, h2.1, h2.2]

/-- For an enumerated status value, the WHERE clause reduces to equality of
the serialized value: the bind lookup coerces the string to the member, and
member equality coincides with serialized-value equality. -/
theorem matchingApprovals_of_value (db : Database) {s : String}
    (hs : s ∈ approvalStatusValues) :
    matchingApprovals db (some s) =
      .ok (db.approvals.filter (fun a => a.status.value == s)) := by
  have hne : s ≠ "" := by rintro rfl; exact absurd hs (by decide)
  obtain ⟨st, hb, hv⟩ := approvalStatus_fromBind_of_value hs
  have ht : strTruthy (some s) = true := by simpa [strTruthy] using hne
  have hfilter : db.approvals.filter (fun a => a.status == st) =
      db.approvals.filter (fun a => a.status.value == s) := by
    refine List.filter_congr (fun a _ => ?_)
    subst hv
    cases a.status <;> cases st <;> decide
  unfold matchingApprovals
  rw [if_pos ht, show (some s).getD "" = s from rfl, hb]
  show Except.ok (db.approvals.filter (fun a => a.status == st)) = _
  rw [hfilter]

/-- For an enumerated environment value, the WHERE clause reduces to
equality of the serialized value. -/
theorem matchingDeployments_of_value (db : Database) {s : String}
    (hs : s ∈ environmentValues) :
    matchingDeployments db (some s) =
      .ok (db.deployments.filter (fun d => d.environment.value == s)) := by
  have hne : s ≠ "" := by rintro rfl; exact absurd hs (by decide)
  obtain ⟨env, hb, hv⟩ := environment_fromBind_of_value hs
  have ht : strTruthy (some s) = true := by simpa [strTruthy] using hne
  have hfilter : db.deployments.filter (fun d => d.environment == env) =
      db.deployments.filter (fun d => d.environment.value == s) := by
    refine List.filter_congr (fun d _ => ?_)
    subst hv
    cases d.environment <;> cases env <;> decide
  unfold matchingDeployments
  rw [if_pos ht, show (some s).getD "" = s from rfl, hb]
  show Except.ok (db.deployments.filter (fun d => d.environment == env)) = _
  rw [hfilter]

/-- A successful match set determines the `list_approvals` response. -/
theorem list_approvals_ok (db : Database) (status : Option String)
    (limit : Nat) {l : List ApprovalRequest}
    (h : matchingApprovals db status = .ok l) :
    list_approvals db status limit =
      .ok { count := (approvalQueryRows l limit).length
            approvals := (approvalQueryRows l limit).map approvalSummaryJson } := by
  unfold list_approvals
  rw [h]
  rfl

/-- A successful match set determines the `list_deployments` response. -/
theorem list_deployments_ok (db : Database) (environment : Option String)
    (limit : Nat) {l : List Deployment}
    (h : matchingDeployments db environment = .ok l) :
    list_deployments db environment limit =
      .ok { count := (deploymentQueryRows l limit).length
            deployments := (deploymentQueryRows l limit).map deploymentSummaryJson } := by
  unfold list_deployments
  rw [h]
  rfl

/-- Inversion of a successful `list_approvals`: the match-set query
succeeded and the response is its sort/limit/serialize image. -/
theorem list_approvals_ok_inv {db : Database} {status : Option String}
    {limit : Nat} {ra : ApprovalsListResponse}
    (h : list_approvals db status limit = .ok ra) :
    ∃ l, matchingApprovals db status = .ok l ∧
      ra = { count := (approvalQueryRows l limit).length
             approvals := (approvalQueryRows l limit).map approvalSummaryJson } := by
  unfold list_approvals at h
  cases hm : matchingApprovals db status with
  | error err => rw [hm] at h; simp [Except.map] at h
  | ok l =>
    rw [hm] at h
    simp only [Except.map, Except.ok.injEq] at h
    exact ⟨l, rfl, h.symm⟩

/-- Inversion of a successful `list_deployments`. -/
theorem list_deployments_ok_inv {db : Database}
    {environment : Option String} {limit : Nat}
    {rd : DeploymentsListResponse}
    (h : list_deployments db environment limit = .ok rd) :
    ∃ l, matchingDeployments db environment = .ok l ∧
      rd = { count := (deploymentQueryRows l limit).length
             deployments := (deploymentQueryRows l limit).map deploymentSummaryJson } := by
  unfold list_deployments at h
  cases hm : matchingDeployments db environment with
  | error err => rw [hm] at h; simp [Except.map] at h
  | ok l =>
    rw [hm] at h
    simp only [Except.map, Except.ok.injEq] at h
    exact ⟨l, rfl, h.symm⟩

/-- `scalar_one_or_none` succeeds with the head exactly when the query
returned at most one row. -/
theorem scalar_one_or_none_of_le_one {l : List α} (h : l.length ≤ 1) :
    scalar_one_or_none l = .ok l.head? := by
  match l with
  | [] => rfl
  | [x] => rfl
  | x :: y :: r => simp at h

/-- Inversion of a successful `get_approval`: the three lookups succeeded and
the body is their assembly. -/
theorem get_approval_ok_elim {db : Database} {id : Nat}
    {d : ApprovalDetailJson} (h : get_approval db id = .ok d) :
    ∃ a ts sc,
      scalar_one_or_none (db.approvals.filter (fun x => x.id == id)) =
        .ok (some a) ∧
      scalar_one_or_none
        (db.test_summaries.filter (fun t => t.approval_id == some id)) =
        .ok ts ∧
      scalar_one_or_none
        (db.security_scans.filter (fun s => s.approval_id == some id)) =
        .ok sc ∧
      d = approvalDetailJson a ts sc := by
  unfold get_approval at h
  cases ha : scalar_one_or_none (db.approvals.filter (fun x => x.id == id)) with
  | error e => rw [ha] at h; simp at h
  | ok o =>
    rw [ha] at h
    cases o with
    | none => simp at h
    | some a =>
      cases hts : scalar_one_or_none
          (db.test_summaries.filter (fun t => t.approval_id == some id)) with
      | error e => rw [hts] at h; simp at h
      | ok ts =>
        rw [hts] at h
        cases hsc : scalar_one_or_none
            (db.security_scans.filter (fun s => s.approval_id == some id)) with
        | error e => rw [hsc] at h; simp at h
        | ok sc =>
          rw [hsc] at h
          simp only [GetApprovalResult.ok.injEq] at h
          exact ⟨a, ts, sc, rfl, rfl, rfl, h.symm⟩

/-! Claim theorems. -/

/-- C1 (counterexample): with approval id 1 present and two `TestSummary`
rows attached to it, `get_approval` does not return successfully: the child
lookup drains through `scalar_one_or_none`, which raises
`MultipleResultsFound` on two rows — so the claim that the endpoint succeeds
for any number (0..N) of child rows, selecting the latest, is false. -/
theorem c1_counterexample :
    (dbTwoSummaries.approvals.filter (fun a => a.id == 1)).length = 1 ∧
    (dbTwoSummaries.test_summaries.filter
      (fun t => t.approval_id == some 1)).length = 2 ∧
    get_approval dbTwoSummaries 1 =
      GetApprovalResult.raised "MultipleResultsFound" :=
  ⟨rfl, rfl, rfl⟩

/-- C1 (amended): for an approval id present exactly once whose child tables
hold at most one associated `TestSummary` and at most one `SecurityScan` row,
`get_approval` returns successfully; each child lookup yields the unique
associated row if any (`head?` of the filtered rows), and `Option.map` turns
an empty lookup into a `null` section rather than an error. With two or more
associated rows of either kind the lookup raises instead of selecting the
latest. -/
theorem c1_amended_unique_child_rows (db : Database) (id : Nat)
    (a : ApprovalRequest)
    (ha : db.approvals.filter (fun x => x.id == id) = [a])
    (hts : (db.test_summaries.filter
      (fun t => t.approval_id == some id)).length ≤ 1)
    (hsc : (db.security_scans.filter
      (fun s => s.approval_id == some id)).length ≤ 1) :
    get_approval db id =
      GetApprovalResult.ok (approvalDetailJson a
        (db.test_summaries.filter (fun t => t.approval_id == some id)).head?
        (db.security_scans.filter (fun s => s.approval_id == some id)).head?) := by
  unfold get_approval
  rw [ha, scalar_one_or_none_of_le_one hts, scalar_one_or_none_of_le_one hsc]
  rfl

/-- C1 (witness): the amended theorem applied to a store with approval id 1,
no `TestSummary` row and exactly one `SecurityScan` row. -/
theorem c1_amended_witness :
    get_approval dbOneScan 1 =
      GetApprovalResult.ok (approvalDetailJson
        (mkApproval 1 ApprovalStatus.pending 5)
        (dbOneScan.test_summaries.filter
          (fun t => t.approval_id == some 1)).head?
        (dbOneScan.security_scans.filter
          (fun s => s.approval_id == some 1)).head?) :=
  c1_amended_unique_child_rows dbOneScan 1
    (mkApproval 1 ApprovalStatus.pending 5) rfl (by decide) (by decide)

/-- C2: when no approval row has the requested id, `get_approval` returns the
literal Python value `({"error": "Approval not found"}, 404)` without
throwing. The claim additionally requires the error body to be paired with an
HTTP 404 status; the handler instead returns this tuple as a plain value, so
FastAPI serializes the entire tuple as the JSON body of a 200 response — the
404 never becomes the HTTP status code (the code-bug recorded for this
claim). -/
theorem c2_not_found_returns_tuple (db : Database) (id : Nat)
    (h : db.approvals.filter (fun a => a.id == id) = []) :
    get_approval db id =
      GetApprovalResult.notFoundTuple ⟨"Approval not found"⟩ 404 := by
  unfold get_approval
  rw [h]
  rfl

/-- C2 (witness): the tuple return evaluated on the empty store at id 1. -/
theorem c2_witness :
    get_approval Database.empty 1 =
      GetApprovalResult.notFoundTuple ⟨"Approval not found"⟩ 404 :=
  c2_not_found_returns_tuple Database.empty 1 rfl

/-- C3: for every non-empty `status`/`environment` filter string that is
neither an enumerated value nor a member name, the claim fails on the code:
instead of matching nothing and returning an empty collection, the string
passes SQLAlchemy's bind lookup unvalidated and the configured native
PostgreSQL enum column rejects it, so the query raises invalid-enum-input —
an unhandled failure — from both endpoints (the code-bug recorded for this
claim; member-name strings such as "PENDING", also outside the enumerated
values, instead match the rows of that status rather than nothing). -/
theorem c3_unrecognized_filter_raises (db : Database) (s e : String)
    (la ld : Nat) (hs0 : s ≠ "") (hs1 : s ∉ approvalStatusValues)
    (hs2 : s ∉ approvalStatusNames) (he0 : e ≠ "")
    (he1 : e ∉ environmentValues) (he2 : e ∉ environmentNames) :
    list_approvals db (some s) la =
      .error ("invalid input value for enum approvalstatus: " ++ s) ∧
    list_deployments db (some e) ld =
      .error ("invalid input value for enum environment: " ++ e) := by
  have hts : strTruthy (some s) = true := by simpa [strTruthy] using hs0
  have hte : strTruthy (some e) = true := by simpa [strTruthy] using he0
  constructor
  · unfold list_approvals matchingApprovals
    rw [hts]
    simp [approvalStatus_fromBind_eq_none hs1 hs2, Except.map]
  · unfold list_deployments matchingDeployments
    rw [hte]
    simp [environment_fromBind_eq_none he1 he2, Except.map]

/-- C3 (witness): the unrecognized filter value "bogus" against a store
holding rows of every represented kind makes both endpoints raise the
invalid-enum-input error instead of returning an empty collection. -/
theorem c3_witness :
    list_approvals dbScenario (some "bogus") 10 =
      .error ("invalid input value for enum approvalstatus: " ++ "bogus") ∧
    list_deployments dbScenario (some "bogus") 20 =
      .error ("invalid input value for enum environment: " ++ "bogus") :=
  c3_unrecognized_filter_raises dbScenario "bogus" "bogus" 10 20
    (by decide) (by decide) (by decide) (by decide) (by decide) (by decide)

/-- C4: for every valid (enumerated) `status` filter value, `list_approvals`
succeeds with exactly the rows whose status serializes to that value —
limit-capped count, every item carrying the filtered status — and likewise
`list_deployments` for every valid `environment` value; with the filter
omitted, the endpoints succeed on the whole table, so rows of any
status/environment are returned. -/
theorem c4_filter_semantics (db : Database) (s e : String) (la ld : Nat)
    (hs : s ∈ approvalStatusValues) (he : e ∈ environmentValues) :
    list_approvals db (some s) la =
      .ok { count :=
              min la (db.approvals.filter (fun a => a.status.value == s)).length
            approvals :=
              (approvalQueryRows
                (db.approvals.filter (fun a => a.status.value == s)) la).map
                approvalSummaryJson } ∧
    (∀ x ∈ (approvalQueryRows
        (db.approvals.filter (fun a => a.status.value == s)) la).map
        approvalSummaryJson, x.status = s) ∧
    list_approvals db none la =
      .ok { count := min la db.approvals.length
            approvals := (approvalQueryRows db.approvals la).map
              approvalSummaryJson } ∧
    list_deployments db (some e) ld =
      .ok { count :=
              min ld (db.deployments.filter
                (fun d => d.environment.value == e)).length
            deployments :=
              (deploymentQueryRows
                (db.deployments.filter (fun d => d.environment.value == e))
                ld).map deploymentSummaryJson } ∧
    (∀ y ∈ (deploymentQueryRows
        (db.deployments.filter (fun d => d.environment.value == e)) ld).map
        deploymentSummaryJson, y.environment = e) ∧
    list_deployments db none ld =
      .ok { count := min ld db.deployments.length
            deployments := (deploymentQueryRows db.deployments ld).map
              deploymentSummaryJson } := by
  refine ⟨?_, ?_, ?_, ?_, ?_, ?_⟩
  · rw [list_approvals_ok db (some s) la (matchingApprovals_of_value db hs)]
    simp [approvalQueryRows_length]
  · intro x hx
    obtain ⟨a, haRows, rfl⟩ := List.mem_map.mp hx
    have h1 := mem_approvalQueryRows haRows
    have h2 := (List.mem_filter.mp h1).2
    have hv : a.status.value = s := by simpa using h2
    simpa [approvalSummaryJson] using hv
  · rw [@list_approvals_ok db none la db.approvals rfl]
    simp [approvalQueryRows_length]
  · rw [list_deployments_ok db (some e) ld (matchingDeployments_of_value db he)]
    simp [deploymentQueryRows_length]
  · intro y hy
    obtain ⟨d, hdRows, rfl⟩ := List.mem_map.mp hy
    have h1 := mem_deploymentQueryRows hdRows
    have h2 := (List.mem_filter.mp h1).2
    have hv : d.environment.value = e := by simpa using h2
    simpa [deploymentSummaryJson] using hv
  · rw [@list_deployments_ok db none ld db.deployments rfl]
    simp [deploymentQueryRows_length]

/-- C4 (witness): on the store with three staging and two production
deployments, the valid filter "production" succeeds and its limit-capped
match count is exactly 2. -/
theorem c4_witness :
    list_deployments dbScenario (some "production") 20 =
      .ok { count :=
              min 20 (dbScenario.deployments.filter
                (fun d => d.environment.value == "production")).length
            deployments :=
              (deploymentQueryRows
                (dbScenario.deployments.filter
                  (fun d => d.environment.value == "production")) 20).map
                deploymentSummaryJson } ∧
    min 20 (dbScenario.deployments.filter
      (fun d => d.environment.value == "production")).length = 2 :=
  ⟨(c4_filter_semantics dbScenario "pending" "production" 10 20
      (by decide) (by decide)).2.2.2.1,
   by decide⟩

/-- C5: whenever `list_approvals` or `list_deployments` returns a
collection, its length never exceeds the `limit` parameter, for every store
state, filter and limit (the Python defaults being 10 and 20
respectively). -/
theorem c5_limit_bounds_length (db : Database)
    (status environment : Option String) (la ld : Nat) :
    (∀ ra, list_approvals db status la = .ok ra →
      ra.approvals.length ≤ la) ∧
    (∀ rd, list_deployments db environment ld = .ok rd →
      rd.deployments.length ≤ ld) ∧
    list_approvals_default_limit = 10 ∧ list_deployments_default_limit = 20 := by
  refine ⟨?_, ?_, rfl, rfl⟩
  · intro ra hra
    obtain ⟨l, _, rfl⟩ := list_approvals_ok_inv hra
    rw [show ({ count := (approvalQueryRows l la).length
                approvals := (approvalQueryRows l la).map approvalSummaryJson } :
        ApprovalsListResponse).approvals =
      (approvalQueryRows l la).map approvalSummaryJson from rfl,
      List.length_map, approvalQueryRows_length]
    exact Nat.min_le_left _ _
  · intro rd hrd
    obtain ⟨l, _, rfl⟩ := list_deployments_ok_inv hrd
    rw [show ({ count := (deploymentQueryRows l ld).length
                deployments := (deploymentQueryRows l ld).map deploymentSummaryJson } :
        DeploymentsListResponse).deployments =
      (deploymentQueryRows l ld).map deploymentSummaryJson from rfl,
      List.length_map, deploymentQueryRows_length]
    exact Nat.min_le_left _ _

/-- C5 (witness): the bound exercised on the empty store with the default
limits: both returned collections are empty, of length within bounds. -/
theorem c5_witness :
    ({ count := 0, approvals := [] } :
      ApprovalsListResponse).approvals.length ≤ 10 ∧
    ({ count := 0, deployments := [] } :
      DeploymentsListResponse).deployments.length ≤ 20 :=
  ⟨(c5_limit_bounds_length Database.empty none none 10 20).1 ⟨0, []⟩ rfl,
   (c5_limit_bounds_length Database.empty none none 10 20).2.1 ⟨0, []⟩ rfl⟩

/-- C6: whenever the match-set query succeeds, the sequence `list_approvals`
returns is the serialization, in order, of a row sequence that is
monotonically non-increasing in `requested_at` for any two adjacent
elements, and the sequence `list_deployments` returns is the serialization
of a row sequence monotonically non-increasing in `started_at`. -/
theorem c6_ordering_nonincreasing (db : Database)
    (status environment : Option String) (la ld : Nat) :
    (∀ l, matchingApprovals db status = .ok l →
      list_approvals db status la =
        .ok { count := (approvalQueryRows l la).length
              approvals := (approvalQueryRows l la).map approvalSummaryJson } ∧
      List.Chain' (fun a b => b.requested_at ≤ a.requested_at)
        (approvalQueryRows l la)) ∧
    (∀ l, matchingDeployments db environment = .ok l →
      list_deployments db environment ld =
        .ok { count := (deploymentQueryRows l ld).length
              deployments := (deploymentQueryRows l ld).map
                deploymentSummaryJson } ∧
      List.Chain' (fun a b => b.started_at ≤ a.started_at)
        (deploymentQueryRows l ld)) := by
  constructor
  · intro l hl
    exact ⟨list_approvals_ok db status la hl,
      (approvalQueryRows_pairwise l la).chain'⟩
  · intro l hl
    exact ⟨list_deployments_ok db environment ld hl,
      (deploymentQueryRows_pairwise l ld).chain'⟩

/-- C6 (witness): the ordering exercised on the mixed-timestamp store with
the filter omitted: the whole approvals table is matched, serialized in
non-increasing `requested_at` order. -/
theorem c6_witness :
    (list_approvals dbScenario none 10 =
      .ok { count := (approvalQueryRows dbScenario.approvals 10).length
            approvals := (approvalQueryRows dbScenario.approvals 10).map
              approvalSummaryJson } ∧
     List.Chain' (fun a b => b.requested_at ≤ a.requested_at)
       (approvalQueryRows dbScenario.approvals 10)) :=
  (c6_ordering_nonincreasing dbScenario none none 10 20).1
    dbScenario.approvals rfl

/-- C7: whenever `get_approval` returns a detail response, an approval with
no associated `TestSummary` row gets `test_summary = null` (not an object of
zeroes), and likewise `security_scan = null` when no `SecurityScan` row is
associated. -/
theorem c7_absent_child_null (db : Database) (id : Nat)
    (d : ApprovalDetailJson) (h : get_approval db id = .ok d) :
    (db.test_summaries.filter (fun t => t.approval_id == some id) = [] →
      d.test_summary = none) ∧
    (db.security_scans.filter (fun s => s.approval_id == some id) = [] →
      d.security_scan = none) := by
  obtain ⟨a, ts, sc, _, hts, hsc, rfl⟩ := get_approval_ok_elim h
  constructor
  · intro hf
    rw [hf] at hts
    have h0 : none = ts := by simpa [scalar_one_or_none] using hts
    simp [approvalDetailJson, ← h0]
  · intro hf
    rw [hf] at hsc
    have h0 : none = sc := by simpa [scalar_one_or_none] using hsc
    simp [approvalDetailJson, ← h0]

/-- C7 (witness): the detail body of approval id 1, status "pending", with no
child rows: `test_summary` and `security_scan` are both null and the status
field is "pending". -/
theorem c7_witness :
    get_approval dbPendingNoChildren 1 =
      GetApprovalResult.ok
        (approvalDetailJson (mkApproval 1 ApprovalStatus.pending 5) none none) ∧
    (approvalDetailJson (mkApproval 1 ApprovalStatus.pending 5) none
      none).test_summary = none ∧
    (approvalDetailJson (mkApproval 1 ApprovalStatus.pending 5) none
      none).status = "pending" :=
  ⟨rfl,
   (c7_absent_child_null dbPendingNoChildren 1
     (approvalDetailJson (mkApproval 1 ApprovalStatus.pending 5) none none)
     rfl).1 rfl,
   rfl⟩

/-- C8 (counterexample): the claim fails as stated: on the empty store — a
store state in which no rows match anything — the call with the unrecognized
filter string "bogus" makes `list_approvals` raise the invalid-enum-input
error on the configured native-enum store instead of succeeding with an
empty collection, refuting "never an error". -/
theorem c8_counterexample :
    list_approvals Database.empty (some "bogus") 10 =
      .error ("invalid input value for enum approvalstatus: " ++ "bogus") :=
  rfl

/-- C8 (amended): for every request whose filter the query accepts (omitted,
empty, or a recognized status/environment string) and whose match set is
empty, `list_approvals` succeeds with `count = 0` and an empty `approvals`
array and `list_deployments` succeeds with `count = 0` and an empty
`deployments` array — never an error; in particular the empty store with no
filter returns `{"count": 0, "approvals": []}`. -/
theorem c8_no_match_empty_success (db : Database)
    (status environment : Option String) (la ld : Nat)
    (h1 : matchingApprovals db status = .ok [])
    (h2 : matchingDeployments db environment = .ok []) :
    list_approvals db status la = .ok ⟨0, []⟩ ∧
    list_deployments db environment ld = .ok ⟨0, []⟩ := by
  constructor
  · rw [list_approvals_ok db status la h1]
    simp [approvalQueryRows]
  · rw [list_deployments_ok db environment ld h2]
    simp [deploymentQueryRows]

/-- C8 (witness): on the empty store, `GET /api/v1/approvals` with the
default limit 10 returns `{"count": 0, "approvals": []}`, and the
deployments endpoint the analogous empty body. -/
theorem c8_witness :
    list_approvals Database.empty none 10 = .ok ⟨0, []⟩ ∧
    list_deployments Database.empty none 20 = .ok ⟨0, []⟩ :=
  c8_no_match_empty_success Database.empty none none 10 20 rfl rfl

/-- C9: `health_check` always returns status "healthy" together with the
timestamp and the service name "backend"; the handler takes no store
dependency, so no store state can influence the result (and as a plain dict
return it is served with the FastAPI default HTTP 200). -/
theorem c9_health_check_constant (now : String) :
    (health_check now).status = "healthy" ∧
    (health_check now).service = "backend" ∧
    (health_check now).timestamp = now :=
  ⟨rfl, rfl, rfl⟩

/-- C10: passing the empty string as the `status` parameter of
`list_approvals` or as the `environment` parameter of `list_deployments` is
the same as omitting the filter: the Python truthiness guard `if status:` /
`if environment:` skips the WHERE clause for the empty string. -/
theorem c10_empty_filter_as_omitted (db : Database) (la ld : Nat) :
    list_approvals db (some "") la = list_approvals db none la ∧
    list_deployments db (some "") ld = list_deployments db none ld := by
  constructor
  · simp [list_approvals, matchingApprovals, strTruthy]
  · simp [list_deployments, matchingDeployments, strTruthy]

end CICD
